import Mathlib

/-!
Shallow embedding of the Antü Küyen Agro front-end service layer
(`services/geminiService.ts` together with `types.ts`): the chat helper
`askCatalogAssistant` and the video-generation workflow `generateVideo`.

The payload-assembly phase of `generateVideo` (source lines 81-152) is pure
and is embedded as `buildGenerateVideoPayload`; the network phase (submit,
poll, fetch) is embedded as `generateVideoRun` over an explicit provider
environment, with fuel for the unbounded polling loop and a counter of
network calls issued.
-/

namespace AntuKuyen

/-! ### Data model, from `types.ts` -/

/-- `VeoModel` from `types.ts`. -/
inductive VeoModel
  | veoFast
  | veo
deriving DecidableEq, Repr

/-- `AspectRatio` from `types.ts` (`'16:9'` / `'9:16'`). -/
inductive AspectRatio
  | landscape
  | portrait
deriving DecidableEq, Repr

/-- `Resolution` from `types.ts` (`'720p'` / `'1080p'`). -/
inductive Resolution
  | p720
  | p1080
deriving DecidableEq, Repr

/-- `GenerationMode` from `types.ts`. -/
inductive GenerationMode
  | textToVideo
  | framesToVideo
  | referencesToVideo
  | extendVideo
deriving DecidableEq, Repr

/-- The part of a DOM `File` object that the service reads (`file.type`). -/
structure JsFile where
  type : String
deriving DecidableEq, Repr

/-- `ImageFile` from `types.ts`: a picked file plus its base64 contents. -/
structure ImageFile where
  file : JsFile
  base64 : String
deriving DecidableEq, Repr

/-- `VideoFile` from `types.ts`. -/
structure VideoFile where
  file : JsFile
  base64 : String
deriving DecidableEq, Repr

/-- The part of the SDK `Video` object that the service reads (`video.uri`). -/
structure Video where
  uri : String
deriving DecidableEq, Repr

/-- `GenerateVideoParams` from `types.ts`.  Optional fields (`foo?: T | null`)
become `Option T`; `isLooping?: boolean` becomes `Option Bool` so that JS
truthiness (`undefined` is falsy) is `(· = some true)`. -/
structure GenerateVideoParams where
  prompt : String
  model : VeoModel
  aspectRatio : AspectRatio
  resolution : Resolution
  mode : GenerationMode
  startFrame : Option ImageFile := none
  endFrame : Option ImageFile := none
  referenceImages : Option (List ImageFile) := none
  logoImage : Option ImageFile := none
  styleImage : Option ImageFile := none
  inputVideo : Option VideoFile := none
  inputVideoObject : Option Video := none
  isLooping : Option Bool := none
deriving DecidableEq, Repr

/-! ### Outgoing provider payload shapes, as assembled by `generateVideo` -/

/-- An `{imageBytes, mimeType}` image literal as built by the service. -/
structure ImagePayload where
  imageBytes : String
  mimeType : String
deriving DecidableEq, Repr

/-- A `VideoGenerationReferenceImage` entry as pushed by the service:
the image literal plus `referenceType: ASSET`. -/
structure RefImagePayload where
  image : ImagePayload
  referenceType : String
deriving DecidableEq, Repr

/-- The `config` object of the outgoing payload.  A field the service may
leave unset is an `Option`; `none` means the key is absent from the
JS object. -/
structure VideoConfig where
  numberOfVideos : Nat
  resolution : Resolution
  aspectRatio : Option AspectRatio := none
  referenceImages : Option (List RefImagePayload) := none
  lastFrame : Option ImagePayload := none
deriving DecidableEq, Repr

/-- The outgoing `generateVideoPayload` object.  `none` on an `Option`
field means the key is absent. -/
structure GenerateVideoPayload where
  model : VeoModel
  config : VideoConfig
  prompt : Option String := none
  image : Option ImagePayload := none
  video : Option Video := none
deriving DecidableEq, Repr

/-- Errors thrown by `generateVideo` (`throw new Error(...)` sites). -/
inductive GenError
  | inputVideoRequired
  | noVideosGenerated
  | fetchFailed (status : Nat)
deriving DecidableEq, Repr

/-- The exact `Error` message string of each throw site in the source. -/
def GenError.message : GenError → String
  | .inputVideoRequired => "An input video object is required to extend a video."
  | .noVideosGenerated => "No videos generated."
  | .fetchFailed status => "Failed to fetch video: " ++ toString status

/-! ### Payload assembly (`generateVideo`, lines 81-152) -/

/-- `{imageBytes: x.base64, mimeType: x.file.type}` as built at every
image-attachment site of `generateVideo`. -/
def imagePayloadOf (img : ImageFile) : ImagePayload :=
  { imageBytes := img.base64, mimeType := img.file.type }

/-- One pushed reference-image entry (lines 101-123):
`{image: {...}, referenceType: ASSET}`. -/
def refImageOf (img : ImageFile) : RefImagePayload :=
  { image := imagePayloadOf img, referenceType := "ASSET" }

/-- The reference-image loop of lines 111-123: push each image onto the
accumulator only while the accumulator holds fewer than 3 entries. -/
def pushRefImages (acc : List RefImagePayload) : List ImageFile → List RefImagePayload
  | [] => acc
  | img :: rest =>
      if acc.length < 3 then pushRefImages (acc ++ [refImageOf img]) rest
      else pushRefImages acc rest

/-- Lines 99-123: the `referenceImagesPayload` list, seeded with the logo
image when present (lines 101-109), then fed the reference images.  A JS
`undefined` reference-image array (`if (params.referenceImages)`) skips the
loop, exactly like an empty list. -/
def referenceImagesPayload (params : GenerateVideoParams) : List RefImagePayload :=
  pushRefImages
    (match params.logoImage with
      | some logo => [refImageOf logo]
      | none => [])
    (params.referenceImages.getD [])

/-- Lines 81-88: the base config: fixed `numberOfVideos = 1`, the requested
resolution, and the aspect ratio unless the mode is `EXTEND_VIDEO`. -/
def baseConfig (params : GenerateVideoParams) : VideoConfig :=
  { numberOfVideos := 1
    resolution := params.resolution
    aspectRatio :=
      if params.mode ≠ GenerationMode.extendVideo then some params.aspectRatio
      else none }

/-- Lines 90-97: the base payload (model + config), with the prompt attached
only when it is JS-truthy, i.e. a non-empty string. -/
def basePayload (params : GenerateVideoParams) : GenerateVideoPayload :=
  { model := params.model
    config := baseConfig params
    prompt := if params.prompt ≠ "" then some params.prompt else none }

/-- Lines 125-127: attach the reference-image list to the config only when
it is non-empty. -/
def withReferenceImages (params : GenerateVideoParams)
    (payload : GenerateVideoPayload) : GenerateVideoPayload :=
  let refs := referenceImagesPayload params
  if refs.length > 0 then { payload with config.referenceImages := some refs }
  else payload

/-- Lines 129-152: the mode-specific branch.  `FRAMES_TO_VIDEO` attaches the
start frame as the primary image and the effective end frame (the start
frame when `isLooping` is truthy, else the explicit end frame) as
`config.lastFrame`; `EXTEND_VIDEO` attaches the stored provider video
object or throws; the other modes add nothing. -/
def withModeFields (params : GenerateVideoParams)
    (payload : GenerateVideoPayload) : Except GenError GenerateVideoPayload :=
  match params.mode with
  | GenerationMode.framesToVideo =>
      let payload :=
        match params.startFrame with
        | some sf => { payload with image := some (imagePayloadOf sf) }
        | none => payload
      let finalEndFrame :=
        if params.isLooping = some true then params.startFrame else params.endFrame
      match finalEndFrame with
      | some ef => .ok { payload with config.lastFrame := some (imagePayloadOf ef) }
      | none => .ok payload
  | GenerationMode.extendVideo =>
      match params.inputVideoObject with
      | some v => .ok { payload with video := some v }
      | none => .error GenError.inputVideoRequired
  | _ => .ok payload

/-- The whole pure payload-assembly phase of `generateVideo`
(lines 81-152), in source order: base config and prompt, reference
images, then the mode branch. -/
def buildGenerateVideoPayload (params : GenerateVideoParams) :
    Except GenError GenerateVideoPayload :=
  withModeFields params (withReferenceImages params (basePayload params))

/-! ### Network phase of `generateVideo` (lines 154-178) -/

/-- A hexadecimal digit's value, for percent-decoding (codes 48-57 are the
digits, 65-70 and 97-102 the upper- and lowercase letters). -/
def hexDigitVal (c : Char) : Option Nat :=
  let n := c.toNat
  if 48 ≤ n ∧ n ≤ 57 then some (n - 48)
  else if 65 ≤ n ∧ n ≤ 70 then some (n - 55)
  else if 97 ≤ n ∧ n ≤ 102 then some (n - 87)
  else none

/-- Percent-decoding of a character list: each well-formed `%HH` escape
becomes the character with code `HH`; anything else passes through. -/
def percentDecode : List Char → List Char
  | [] => []
  | '%' :: a :: b :: rest =>
      match hexDigitVal a, hexDigitVal b with
      | some hi, some lo => Char.ofNat (16 * hi + lo) :: percentDecode rest
      | _, _ => '%' :: percentDecode (a :: b :: rest)
  | c :: rest => c :: percentDecode rest
termination_by l => l.length

/-- Model of the JS `decodeURIComponent` applied to the video URI
(line 167). -/
def decodeURIComponent (s : String) : String :=
  String.mk (percentDecode s.data)

/-- The slice of an SDK `GeneratedVideo` that the service reads. -/
structure GeneratedVideo where
  video : Video
deriving DecidableEq, Repr

/-- The slice of the operation's `response` that the service reads:
`generatedVideos` may be absent (`!videos`) or an empty array. -/
structure OperationResponse where
  generatedVideos : Option (List GeneratedVideo) := none
deriving DecidableEq, Repr

/-- An SDK operation handle: the `done` flag and the optional `response`. -/
structure Operation where
  done : Bool
  response : Option OperationResponse := none
deriving DecidableEq, Repr

/-- The slice of a `fetch` response the service reads: `ok`, `status`,
and the body bytes from `res.blob()`. -/
structure FetchResponse where
  ok : Bool
  status : Nat
  blob : List UInt8 := []
deriving DecidableEq, Repr

/-- The provider environment `generateVideo` talks to: the ambient API key,
the two SDK calls, the asset `fetch`, and `URL.createObjectURL`.  Each of
the three network entry points counts as one network call. -/
structure VideoEnv where
  apiKey : String
  generateVideos : GenerateVideoPayload → Operation
  getVideosOperation : Operation → Operation
  fetch : String → FetchResponse
  createObjectURL : List UInt8 → String

/-- The success value of `generateVideo`:
`{objectUrl, blob, uri, video}` (line 175). -/
structure GenerateVideoResult where
  objectUrl : String
  blob : List UInt8
  uri : String
  video : Video
deriving DecidableEq, Repr

/-- The polling loop of lines 156-159, with fuel for the unbounded
`while (!operation.done)`: returns the completed operation (or `none` when
fuel runs out mid-poll) together with the number of
`getVideosOperation` network calls made. -/
def pollOperation (env : VideoEnv) : Nat → Operation → Option Operation × Nat
  | fuel, operation =>
      if operation.done then (some operation, 0)
      else
        match fuel with
        | 0 => (none, 0)
        | n + 1 =>
            let next := pollOperation env n (env.getVideosOperation operation)
            (next.1, next.2 + 1)

/-- Lines 161-178: inspect the completed operation.  A missing response, a
missing `generatedVideos` array or an empty one throws
`No videos generated.`; otherwise the first video's URI is decoded, fetched
with the API key appended, and a non-ok status throws
`Failed to fetch video: {status}`.  The second component counts the `fetch`
network call. -/
def handleCompletion (env : VideoEnv) (operation : Operation) :
    Except GenError GenerateVideoResult × Nat :=
  match operation.response with
  | some response =>
      match response.generatedVideos with
      | none => (.error GenError.noVideosGenerated, 0)
      | some [] => (.error GenError.noVideosGenerated, 0)
      | some (firstVideo :: _) =>
          let videoObject := firstVideo.video
          let url := decodeURIComponent videoObject.uri
          let res := env.fetch (url ++ "&key=" ++ env.apiKey)
          if !res.ok then (.error (GenError.fetchFailed res.status), 1)
          else
            (.ok { objectUrl := env.createObjectURL res.blob
                   blob := res.blob
                   uri := url
                   video := videoObject }, 1)
  | none => (.error GenError.noVideosGenerated, 0)

/-- The whole `generateVideo` run: assemble the payload (throwing before any
network traffic on failure), submit it, poll to completion, and handle the
result.  Returns `none` when the polling fuel runs out (the source loop is
unbounded), and counts every network call issued
(`generateVideos`, each `getVideosOperation`, the final `fetch`). -/
def generateVideoRun (env : VideoEnv) (fuel : Nat) (params : GenerateVideoParams) :
    Option (Except GenError GenerateVideoResult) × Nat :=
  match buildGenerateVideoPayload params with
  | .error e => (some (.error e), 0)
  | .ok payload =>
      let operation := env.generateVideos payload
      match pollOperation env fuel operation with
      | (none, polls) => (none, 1 + polls)
      | (some completed, polls) =>
          let result := handleCompletion env completed
          (some result.1, 1 + polls + result.2)

/-! ### Chat helper `askCatalogAssistant` (lines 13-74) -/

/-- The `CATALOG_DATA` constant (lines 13-57). -/
def CATALOG_DATA : String :=
  "
ANTÜ KÜYEN AGRO - CATÁLOGO COMERCIAL DIC 2025 - ENE 2026:

MISIÓN: \"Guardián de los Valles\". Primera milla limpia, trazable y no-GMO en Arica, Chile.

PRODUCTOS Y DISPONIBILIDAD:
1. Tomates Beef (Suministro Asegurado):
   - ANTUMAY: Rústico, hermoso formato, homogéneo. (700 - 1000 toneladas/mes).
   - ALAMINA: Calidad postcosecha incomparable. Ideal invierno/primor. (100 - 300 toneladas/mes).
   - ATTIYA: Calibre grande, excelente cuaja en frío y baja luz. (100 - 300 toneladas/mes).

2. Tomates Cherry (Suministro Asegurado):
   - ROMANITA: Midi Plum, sabor y textura únicos. 7.5° Brix. (30 - 100 toneladas/mes).
   - NANCY: Planta vigorosa, color rojo intenso. 8.5° Brix. (30 - 100 toneladas/mes).
   - ORNELA: Grape indeterminado, maduración temprana. 7-8.5° Brix. (30 - 100 toneladas/mes).

3. Pimientos de Alta Calidad:
   - Achille (Verde: Vit C, K, ácido fólico).
   - Coraza (Rojo: paredes gruesas, vibrante).
   - Sven & Prosperity (Amarillo/Naranja: sabor dulce).
   - Disponibilidad total pimientos: 20 a 30 toneladas/mes.

4. Ajíes (Inferno, Fakur y otros):
   - Ají Híbrido Húngaro: Ciclo 85-95 días, 22-25 cm, alta pungencia.
   - Ají Hot Banana: Estructura grande, paredes gruesas, larga vida de anaquel.
   - Disponibilidad total ajíes: 20 a 30 toneladas/mes.

5. Cebolla Roja y Albahaca:
   - Cebolla Morada Rasta: Sabores únicos, textura crujiente, aroma intenso.
   - Albahaca Italiana: Hojas anchas, fragantes, ideal gourmet.
   - Disponibilidad conjunta: 40 a 80 toneladas/mes.

6. Zapallitos y Pepinos:
   - Zapallitos (Terminator, Romeral, Meteoro): Cilíndricos, Vit A, C, K.
   - Zapallito Bola 8: Gourmet, ideal para rellenos.
   - Pepino Ensalada (Fuseta, Javan, Cumlaude): Refrescante, Vit K y C.
   - Disponibilidad cada grupo: 20 a 30 toneladas/mes.

ESTRUCTURA CORPORATIVA (Holding Antü Küyen SpA):
Operador Agrofinanciero Regenerativo (OAR) con 20% margen neto objetivo 2026. Control de riesgo mediante matriz de 5 seguros.

CONTACTO:
Chile: Paolo Minguzzi (+56 9 6848 8698, p.minguzzi@agroantukuyen.com).
Argentina: Anuar Peche (+54 9 351 408 6291, Representación Técnica).
"

/-- The static system instruction of lines 64-68: persona text with
`CATALOG_DATA` interpolated at the end of the template literal. -/
def catalogSystemInstruction : String :=
  "Eres el Asistente Estratégico y Operativo de Antü Küyen Agro. Tu base de conocimiento es el Catálogo DIC 2025 - ENE 2026.
      Proporciona datos exactos de disponibilidad (toneladas/mes) y grados Brix cuando se te pregunte.
      Mantén el tono de \"Guardián de los Valles\". Explica los beneficios nutricionales (Vitaminas C, K, antocianinas) y el modelo OAR (Operador Agrofinanciero Regenerativo).
      Si preguntan por contacto, menciona a Paolo Minguzzi para Chile y Anuar Peche para Argentina.
      Información del catálogo: " ++ CATALOG_DATA

/-- One entry of the `history` parameter:
`{role: string, parts: {text: string}[]}`. -/
structure ChatTurn where
  role : String
  parts : List String
deriving DecidableEq, Repr

/-- The arguments of `ai.chats.create`: model name and system instruction. -/
structure ChatCreateConfig where
  model : String
  systemInstruction : String
deriving DecidableEq, Repr

/-- The argument of `chat.sendMessage`: `{message: prompt}`. -/
structure SendMessageArgs where
  message : String
deriving DecidableEq, Repr

/-- The slice of the provider's chat response the service reads:
`response.text`, which may be absent. -/
structure ChatResponse where
  text : Option String := none
deriving DecidableEq, Repr

/-- A transport/auth failure: the SDK call's promise rejects. -/
inductive ChatFailure
  | providerError (message : String)
deriving DecidableEq, Repr

/-- The chat provider environment: creating a chat and sending one message,
which either yields a response or rejects. -/
structure ChatEnv where
  send : ChatCreateConfig → SendMessageArgs → Except ChatFailure ChatResponse

/-- The outgoing call `askCatalogAssistant` makes for a given prompt and
history: a fixed model and system instruction (lines 61-70) and the single
message `{message: prompt}` (line 72).  The `history` parameter is accepted
(line 59) but never read by the function body. -/
def askCatalogAssistantCall (prompt : String) (history : List ChatTurn) :
    ChatCreateConfig × SendMessageArgs :=
  ({ model := "gemini-3-flash-preview"
     systemInstruction := catalogSystemInstruction },
   { message := prompt })

/-- `askCatalogAssistant` (lines 59-74): performs the outgoing call and
returns `response.text` verbatim; a rejected provider call propagates. -/
def askCatalogAssistant (env : ChatEnv) (prompt : String)
    (history : List ChatTurn := []) : Except ChatFailure (Option String) :=
  let call := askCatalogAssistantCall prompt history
  (env.send call.1 call.2).map (fun response => response.text)

/-! ### Helper lemmas -/

/-- Closed form of the payload assembly: it fails exactly on
`EXTEND_VIDEO` without a stored video object, and otherwise every field of
the outgoing payload is determined as below. -/
theorem buildGenerateVideoPayload_eq (params : GenerateVideoParams) :
    buildGenerateVideoPayload params =
      (if params.mode = GenerationMode.extendVideo ∧ params.inputVideoObject = none then
        .error GenError.inputVideoRequired
      else
        .ok {
          model := params.model
          config := {
            numberOfVideos := 1
            resolution := params.resolution
            aspectRatio :=
              if params.mode ≠ GenerationMode.extendVideo then some params.aspectRatio
              else none
            referenceImages :=
              if (referenceImagesPayload params).length > 0 then
                some (referenceImagesPayload params)
              else none
            lastFrame :=
              if params.mode = GenerationMode.framesToVideo then
                Option.map imagePayloadOf
                  (if params.isLooping = some true then params.startFrame
                   else params.endFrame)
              else none }
          prompt := if params.prompt ≠ "" then some params.prompt else none
          image :=
            if params.mode = GenerationMode.framesToVideo then
              Option.map imagePayloadOf params.startFrame
            else none
          video :=
            if params.mode = GenerationMode.extendVideo then params.inputVideoObject
            else none }) := by
  obtain ⟨pr, mo, ar, re, mode, sf, ef, ri, lo, st, iv, ivo, lp⟩ := params
  by_cases h :
      (referenceImagesPayload
        ⟨pr, mo, ar, re, mode, sf, ef, ri, lo, st, iv, ivo, lp⟩).length > 0 <;>
    simp only [buildGenerateVideoPayload, withReferenceImages, h, if_true, if_false,
      ite_true, ite_false] <;>
    cases mode <;> cases sf <;> cases ef <;> cases ivo <;>
    rcases lp with _ | _ | _ <;> rfl

/-- The push loop never grows the accumulator past 3 and behaves as a
truncating append: starting from an accumulator of at most 3 entries it
returns the first 3 entries of the accumulator followed by the images. -/
theorem pushRefImages_eq_take (l : List ImageFile) :
    ∀ acc : List RefImagePayload, acc.length ≤ 3 →
      pushRefImages acc l = (acc ++ l.map refImageOf).take 3 := by
  induction l with
  | nil =>
      intro acc hacc
      simp [pushRefImages, List.take_of_length_le hacc]
  | cons img rest ih =>
      intro acc hacc
      rw [pushRefImages]
      by_cases hlt : acc.length < 3
      · rw [if_pos hlt, ih (acc ++ [refImageOf img])
          (by simp only [List.length_append, List.length_singleton]; omega)]
        simp
      · rw [if_neg hlt, ih acc hacc]
        have h3 : (3 : Nat) ≤ acc.length := not_lt.mp hlt
        rw [List.take_append_of_le_length h3, List.take_append_of_le_length h3]

/-- The reference-image list is the first 3 entries of: the logo (when
present) followed by the supplied reference images, each converted to an
`ASSET` reference. -/
theorem referenceImagesPayload_eq (params : GenerateVideoParams) :
    referenceImagesPayload params =
      ((params.logoImage.toList ++ params.referenceImages.getD []).map
        refImageOf).take 3 := by
  unfold referenceImagesPayload
  rcases hlo : params.logoImage with _ | logo
  · rw [pushRefImages_eq_take _ [] (by simp)]
    simp
  · rw [pushRefImages_eq_take _ [refImageOf logo] (by simp)]
    simp

/-! ### Concrete sample inputs used by counterexamples and witnesses -/

/-- A sample logo image file. -/
def sampleLogo : ImageFile := { file := { type := "image/png" }, base64 := "TE9HTw" }

/-- A sample start-frame image file. -/
def sampleStart : ImageFile := { file := { type := "image/jpeg" }, base64 := "U1RBUlQ" }

/-- A sample end-frame image file, distinct from `sampleStart`. -/
def sampleEnd : ImageFile := { file := { type := "image/jpeg" }, base64 := "RU5E" }

/-- Three further sample reference images. -/
def sampleRef1 : ImageFile := { file := { type := "image/png" }, base64 := "UkVGMQ" }

/-- Second sample reference image. -/
def sampleRef2 : ImageFile := { file := { type := "image/png" }, base64 := "UkVGMg" }

/-- Third sample reference image. -/
def sampleRef3 : ImageFile := { file := { type := "image/png" }, base64 := "UkVGMw" }

/-- A plain text-to-video request. -/
def textWitnessParams : GenerateVideoParams :=
  { prompt := "sunrise over a valley"
    model := VeoModel.veo
    aspectRatio := AspectRatio.landscape
    resolution := Resolution.p720
    mode := GenerationMode.textToVideo }

/-- The payload the service assembles for `textWitnessParams`. -/
def textWitnessPayload : GenerateVideoPayload :=
  { model := VeoModel.veo
    config := { numberOfVideos := 1
                resolution := Resolution.p720
                aspectRatio := some AspectRatio.landscape }
    prompt := some "sunrise over a valley" }

example : buildGenerateVideoPayload textWitnessParams = .ok textWitnessPayload := rfl

/-! ### C9 -/

/-- C9: for every request that assembles successfully, the provider config
carries `numberOfVideos = 1` and the requested resolution, and carries the
requested aspect ratio exactly when the mode is not `EXTEND_VIDEO`. -/
theorem generateVideo_config_contents (params : GenerateVideoParams)
    (p : GenerateVideoPayload) (h : buildGenerateVideoPayload params = .ok p) :
    p.config.numberOfVideos = 1 ∧
    p.config.resolution = params.resolution ∧
    p.config.aspectRatio =
      (if params.mode = GenerationMode.extendVideo then none
       else some params.aspectRatio) := by
  rw [buildGenerateVideoPayload_eq] at h
  split at h
  · exact Except.noConfusion h
  · injection h with h
    subst h
    refine ⟨rfl, rfl, ?_⟩
    by_cases hm : params.mode = GenerationMode.extendVideo <;> simp [hm]

/-- Witness for C9 at the sample text-to-video request. -/
theorem generateVideo_config_contents_witness :
    textWitnessPayload.config.numberOfVideos = 1 ∧
    textWitnessPayload.config.resolution = textWitnessParams.resolution ∧
    textWitnessPayload.config.aspectRatio =
      (if textWitnessParams.mode = GenerationMode.extendVideo then none
       else some textWitnessParams.aspectRatio) :=
  generateVideo_config_contents textWitnessParams textWitnessPayload rfl

/-! ### C3 -/

/-- A request whose prompt is a whitespace-only string. -/
def whitespacePromptParams : GenerateVideoParams :=
  { prompt := " "
    model := VeoModel.veo
    aspectRatio := AspectRatio.landscape
    resolution := Resolution.p720
    mode := GenerationMode.textToVideo }

/-- C3 counterexample: a whitespace-only prompt is JS-truthy, so the
service sends it verbatim instead of omitting the field: the assembled
payload for `whitespacePromptParams` carries `prompt = " "`. -/
theorem generateVideo_whitespacePrompt_sent_cex :
    whitespacePromptParams.prompt.data.all Char.isWhitespace = true ∧
    whitespacePromptParams.prompt ≠ "" ∧
    Except.map (fun p => p.prompt)
      (buildGenerateVideoPayload whitespacePromptParams) = .ok (some " ") :=
  ⟨by decide, by decide, rfl⟩

/-- C3 amended: the payload omits the prompt field exactly when the prompt
is the empty string; any non-empty prompt, whitespace-only included, is
sent verbatim. -/
theorem generateVideo_prompt_omitted_iff_empty (params : GenerateVideoParams)
    (p : GenerateVideoPayload) (h : buildGenerateVideoPayload params = .ok p) :
    p.prompt = (if params.prompt = "" then none else some params.prompt) := by
  rw [buildGenerateVideoPayload_eq] at h
  split at h
  · exact Except.noConfusion h
  · injection h with h
    subst h
    by_cases hp : params.prompt = "" <;> simp [hp]

/-- Witness for the amended C3 at the sample text-to-video request. -/
theorem generateVideo_prompt_omitted_iff_empty_witness :
    textWitnessPayload.prompt =
      (if textWitnessParams.prompt = "" then none
       else some textWitnessParams.prompt) :=
  generateVideo_prompt_omitted_iff_empty textWitnessParams textWitnessPayload rfl

/-! ### C4 -/

/-- C4: in `FRAMES_TO_VIDEO` mode with `isLooping` set, the `lastFrame`
sent to the provider is the start frame, and the assembled payload does not
depend on the request's explicit end frame at all. -/
theorem generateVideo_looping_lastFrame_eq_startFrame
    (params : GenerateVideoParams) (p : GenerateVideoPayload)
    (hm : params.mode = GenerationMode.framesToVideo)
    (hl : params.isLooping = some true)
    (h : buildGenerateVideoPayload params = .ok p) :
    p.config.lastFrame = Option.map imagePayloadOf params.startFrame ∧
    ∀ e, buildGenerateVideoPayload { params with endFrame := e } =
      buildGenerateVideoPayload params := by
  constructor
  · rw [buildGenerateVideoPayload_eq] at h
    split at h
    · exact Except.noConfusion h
    · injection h with h
      subst h
      simp [hm, hl]
  · intro e
    rw [buildGenerateVideoPayload_eq, buildGenerateVideoPayload_eq]
    simp [hm, hl, referenceImagesPayload_eq]

/-- A looping frames-to-video request with conflicting start and end
frames. -/
def loopingParams : GenerateVideoParams :=
  { prompt := "loop"
    model := VeoModel.veoFast
    aspectRatio := AspectRatio.portrait
    resolution := Resolution.p1080
    mode := GenerationMode.framesToVideo
    startFrame := some sampleStart
    endFrame := some sampleEnd
    isLooping := some true }

/-- The payload the service assembles for `loopingParams`: the last frame
is the start frame, not the request's explicit end frame. -/
def loopingPayload : GenerateVideoPayload :=
  { model := VeoModel.veoFast
    config := { numberOfVideos := 1
                resolution := Resolution.p1080
                aspectRatio := some AspectRatio.portrait
                lastFrame := some (imagePayloadOf sampleStart) }
    prompt := some "loop"
    image := some (imagePayloadOf sampleStart) }

example : buildGenerateVideoPayload loopingParams = .ok loopingPayload := rfl

/-- Witness for C4 at `loopingParams`. -/
theorem generateVideo_looping_lastFrame_eq_startFrame_witness :
    loopingPayload.config.lastFrame =
      Option.map imagePayloadOf loopingParams.startFrame ∧
    ∀ e, buildGenerateVideoPayload { loopingParams with endFrame := e } =
      buildGenerateVideoPayload loopingParams :=
  generateVideo_looping_lastFrame_eq_startFrame loopingParams loopingPayload
    rfl rfl rfl

/-! ### C10 -/

/-- C10: in `FRAMES_TO_VIDEO` mode with `isLooping` set and no start frame,
the payload carries neither a primary image nor a `lastFrame`, even when an
explicit end frame is present in the request. -/
theorem generateVideo_looping_noStartFrame_omits_frames
    (params : GenerateVideoParams) (p : GenerateVideoPayload)
    (hm : params.mode = GenerationMode.framesToVideo)
    (hl : params.isLooping = some true)
    (hsf : params.startFrame = none)
    (hef : params.endFrame.isSome = true)
    (h : buildGenerateVideoPayload params = .ok p) :
    p.image = none ∧ p.config.lastFrame = none := by
  rw [buildGenerateVideoPayload_eq] at h
  split at h
  · exact Except.noConfusion h
  · injection h with h
    subst h
    simp [hm, hl, hsf]

/-- A looping frames-to-video request with an explicit end frame but no
start frame. -/
def loopingNoStartParams : GenerateVideoParams :=
  { prompt := "loop"
    model := VeoModel.veoFast
    aspectRatio := AspectRatio.portrait
    resolution := Resolution.p1080
    mode := GenerationMode.framesToVideo
    startFrame := none
    endFrame := some sampleEnd
    isLooping := some true }

/-- The payload the service assembles for `loopingNoStartParams`: no
primary image and no `lastFrame`, the explicit end frame being ignored. -/
def loopingNoStartPayload : GenerateVideoPayload :=
  { model := VeoModel.veoFast
    config := { numberOfVideos := 1
                resolution := Resolution.p1080
                aspectRatio := some AspectRatio.portrait }
    prompt := some "loop" }

example : buildGenerateVideoPayload loopingNoStartParams = .ok loopingNoStartPayload := rfl

/-- Witness for C10 at `loopingNoStartParams`. -/
theorem generateVideo_looping_noStartFrame_omits_frames_witness :
    loopingNoStartPayload.image = none ∧
    loopingNoStartPayload.config.lastFrame = none :=
  generateVideo_looping_noStartFrame_omits_frames loopingNoStartParams
    loopingNoStartPayload rfl rfl rfl rfl rfl

/-! ### C1 -/

/-- A text-to-video request carrying a populated logo image, a field the
spec calls irrelevant outside `REFERENCES_TO_VIDEO`. -/
def strayLogoParams : GenerateVideoParams :=
  { prompt := "a sunrise"
    model := VeoModel.veo
    aspectRatio := AspectRatio.landscape
    resolution := Resolution.p720
    mode := GenerationMode.textToVideo
    logoImage := some sampleLogo }

/-- C1 counterexample: the translation step is not a strict projection
keyed by mode: in `TEXT_TO_VIDEO` mode a populated logo image still lands
in the outgoing payload's `config.referenceImages`. -/
theorem generateVideo_strictProjection_cex :
    strayLogoParams.mode = GenerationMode.textToVideo ∧
    strayLogoParams.logoImage = some sampleLogo ∧
    Except.map (fun p => p.config.referenceImages)
      (buildGenerateVideoPayload strayLogoParams) =
      .ok (some [refImageOf sampleLogo]) :=
  ⟨rfl, rfl, rfl⟩

/-- C1 amended: the projection is keyed by mode only for the frame and
video fields — the primary image and `lastFrame` appear only in
`FRAMES_TO_VIDEO` mode, the video handle only in `EXTEND_VIDEO` mode, and
`styleImage` never influences the payload — while reference images and the
logo are attached to the config whenever either is present, and the
attached reference-image list is the same whatever the request's mode. -/
theorem generateVideo_modeProjection_partial (params : GenerateVideoParams)
    (p : GenerateVideoPayload) (h : buildGenerateVideoPayload params = .ok p) :
    (params.mode ≠ GenerationMode.framesToVideo →
      p.image = none ∧ p.config.lastFrame = none) ∧
    (params.mode ≠ GenerationMode.extendVideo → p.video = none) ∧
    (∀ s, buildGenerateVideoPayload { params with styleImage := s } =
      buildGenerateVideoPayload params) ∧
    (params.logoImage.isSome = true ∨ params.referenceImages.getD [] ≠ [] →
      p.config.referenceImages = some (referenceImagesPayload params)) ∧
    (∀ m q, buildGenerateVideoPayload { params with mode := m } = .ok q →
      q.config.referenceImages = p.config.referenceImages) := by
  rw [buildGenerateVideoPayload_eq] at h
  split at h
  · exact Except.noConfusion h
  · injection h with h
    subst h
    refine ⟨fun hm => ⟨by simp [hm], by simp [hm]⟩, fun hm => by simp [hm], fun s => rfl,
      fun hpresent => ?_, fun m q hq => ?_⟩
    · have hlen : 0 < params.logoImage.toList.length +
          (params.referenceImages.getD []).length := by
        rcases hpresent with hp | hp
        · rcases hlo : params.logoImage with _ | logo
          · rw [hlo] at hp
            simp at hp
          · simp [hlo]
        · have := List.length_pos.mpr hp
          omega
      have hlen2 : 0 < (referenceImagesPayload params).length := by
        rw [referenceImagesPayload_eq]
        simp only [List.length_take, List.length_map, List.length_append]
        omega
      simp [hlen2]
    · rw [buildGenerateVideoPayload_eq] at hq
      split at hq
      · exact Except.noConfusion hq
      · injection hq with hq
        subst hq
        have hrm : referenceImagesPayload { params with mode := m } =
            referenceImagesPayload params := rfl
        simp only [hrm]

/-- The payload the service assembles for `strayLogoParams`. -/
def strayLogoPayload : GenerateVideoPayload :=
  { model := VeoModel.veo
    config := { numberOfVideos := 1
                resolution := Resolution.p720
                aspectRatio := some AspectRatio.landscape
                referenceImages := some [refImageOf sampleLogo] }
    prompt := some "a sunrise" }

example : buildGenerateVideoPayload strayLogoParams = .ok strayLogoPayload := rfl

/-- A frames-to-video request carrying a non-logo reference image (and no
logo), another field the spec calls irrelevant outside
`REFERENCES_TO_VIDEO`. -/
def framesWithRefParams : GenerateVideoParams :=
  { prompt := "clip"
    model := VeoModel.veoFast
    aspectRatio := AspectRatio.landscape
    resolution := Resolution.p720
    mode := GenerationMode.framesToVideo
    startFrame := some sampleStart
    referenceImages := some [sampleRef1] }

/-- The payload the service assembles for `framesWithRefParams`: the
reference image is attached even though the mode is `FRAMES_TO_VIDEO`. -/
def framesWithRefPayload : GenerateVideoPayload :=
  { model := VeoModel.veoFast
    config := { numberOfVideos := 1
                resolution := Resolution.p720
                aspectRatio := some AspectRatio.landscape
                referenceImages := some [refImageOf sampleRef1] }
    prompt := some "clip"
    image := some (imagePayloadOf sampleStart) }

example : buildGenerateVideoPayload framesWithRefParams = .ok framesWithRefPayload := rfl

/-- The payload the service assembles for `framesWithRefParams` with its
mode switched to `REFERENCES_TO_VIDEO`: the frame field disappears but the
attached reference-image list is unchanged. -/
def refsModeVariantPayload : GenerateVideoPayload :=
  { model := VeoModel.veoFast
    config := { numberOfVideos := 1
                resolution := Resolution.p720
                aspectRatio := some AspectRatio.landscape
                referenceImages := some [refImageOf sampleRef1] }
    prompt := some "clip" }

example : buildGenerateVideoPayload
    { framesWithRefParams with mode := GenerationMode.referencesToVideo } =
    .ok refsModeVariantPayload := rfl

/-- Witness for the amended C1: at `strayLogoParams` (TextToVideo, logo
populated) no frame fields and no video handle appear yet the logo is
attached, and at `framesWithRefParams` (FramesToVideo, non-logo reference
image populated) the reference image is attached with the same list as in
the `REFERENCES_TO_VIDEO` variant of the request. -/
theorem generateVideo_modeProjection_partial_witness :
    ((buildGenerateVideoPayload strayLogoParams = .ok strayLogoPayload) ∧
      strayLogoPayload.image = none ∧ strayLogoPayload.config.lastFrame = none ∧
      strayLogoPayload.video = none ∧
      strayLogoPayload.config.referenceImages =
        some (referenceImagesPayload strayLogoParams)) ∧
    (framesWithRefPayload.config.referenceImages =
      some (referenceImagesPayload framesWithRefParams) ∧
      refsModeVariantPayload.config.referenceImages =
        framesWithRefPayload.config.referenceImages) :=
  have h := generateVideo_modeProjection_partial strayLogoParams strayLogoPayload rfl
  have h2 := generateVideo_modeProjection_partial framesWithRefParams
    framesWithRefPayload rfl
  ⟨⟨rfl, (h.1 (by decide)).1, (h.1 (by decide)).2, h.2.1 (by decide),
      h.2.2.2.1 (Or.inl rfl)⟩,
   ⟨h2.2.2.2.1 (Or.inr (by decide)),
    h2.2.2.2.2 GenerationMode.referencesToVideo refsModeVariantPayload rfl⟩⟩

/-! ### C2 -/

/-- C2: an `EXTEND_VIDEO` request with no stored provider video object
fails with the configuration error before any network call: the run result
is the error and the network-call count is zero, for every provider
environment and any polling fuel. -/
theorem generateVideo_extendVideo_missingHandle_failsFast (env : VideoEnv)
    (fuel : Nat) (params : GenerateVideoParams)
    (hm : params.mode = GenerationMode.extendVideo)
    (hv : params.inputVideoObject = none) :
    generateVideoRun env fuel params =
      (some (.error GenError.inputVideoRequired), 0) := by
  have hb : buildGenerateVideoPayload params = .error GenError.inputVideoRequired := by
    rw [buildGenerateVideoPayload_eq]
    simp [hm, hv]
  simp [generateVideoRun, hb]

/-- A provider environment that would answer every call, used to show that
the failing request never reaches it. -/
def idleVideoEnv : VideoEnv :=
  { apiKey := "K"
    generateVideos := fun _ => { done := true }
    getVideosOperation := fun op => op
    fetch := fun _ => { ok := true, status := 200 }
    createObjectURL := fun _ => "blob:local" }

/-- An `EXTEND_VIDEO` request with no provider video object. -/
def extendNoHandleParams : GenerateVideoParams :=
  { prompt := "more"
    model := VeoModel.veo
    aspectRatio := AspectRatio.landscape
    resolution := Resolution.p720
    mode := GenerationMode.extendVideo
    inputVideoObject := none }

/-- Witness for C2 at `extendNoHandleParams`. -/
theorem generateVideo_extendVideo_missingHandle_failsFast_witness :
    generateVideoRun idleVideoEnv 5 extendNoHandleParams =
      (some (.error GenError.inputVideoRequired), 0) :=
  generateVideo_extendVideo_missingHandle_failsFast idleVideoEnv 5
    extendNoHandleParams rfl rfl

/-! ### C5 -/

/-- C5: the reference-image list is the 3-entry truncation of the logo
image (when present) followed by the reference images in order — so it
never exceeds 3 entries, excess entries are dropped without error, and it
is attached to the config exactly when it is non-empty. -/
theorem generateVideo_referenceImages_capped (params : GenerateVideoParams)
    (p : GenerateVideoPayload) (h : buildGenerateVideoPayload params = .ok p) :
    referenceImagesPayload params =
      ((params.logoImage.toList ++ params.referenceImages.getD []).map
        refImageOf).take 3 ∧
    (referenceImagesPayload params).length =
      min (params.logoImage.toList.length +
        (params.referenceImages.getD []).length) 3 ∧
    (referenceImagesPayload params).length ≤ 3 ∧
    p.config.referenceImages =
      (if (referenceImagesPayload params).length > 0 then
        some (referenceImagesPayload params)
      else none) := by
  refine ⟨referenceImagesPayload_eq params, ?_, ?_, ?_⟩
  · rw [referenceImagesPayload_eq]
    simp [Nat.min_comm]
  · rw [referenceImagesPayload_eq]
    simp
  · rw [buildGenerateVideoPayload_eq] at h
    split at h
    · exact Except.noConfusion h
    · injection h with h
      subst h
      rfl

/-- A references-to-video request with a logo and three reference images:
four candidates for three slots. -/
def overfullRefsParams : GenerateVideoParams :=
  { prompt := "brand film"
    model := VeoModel.veo
    aspectRatio := AspectRatio.landscape
    resolution := Resolution.p720
    mode := GenerationMode.referencesToVideo
    referenceImages := some [sampleRef1, sampleRef2, sampleRef3]
    logoImage := some sampleLogo }

/-- The payload the service assembles for `overfullRefsParams`: exactly 3
entries, logo first, the last reference image silently dropped. -/
def overfullRefsPayload : GenerateVideoPayload :=
  { model := VeoModel.veo
    config := { numberOfVideos := 1
                resolution := Resolution.p720
                aspectRatio := some AspectRatio.landscape
                referenceImages :=
                  some [refImageOf sampleLogo, refImageOf sampleRef1,
                    refImageOf sampleRef2] }
    prompt := some "brand film" }

example : buildGenerateVideoPayload overfullRefsParams = .ok overfullRefsPayload := rfl

/-- Witness for C5 at `overfullRefsParams` (1 logo + 3 references yields
exactly 3 attached entries). -/
theorem generateVideo_referenceImages_capped_witness :
    referenceImagesPayload overfullRefsParams =
      ((overfullRefsParams.logoImage.toList ++
        overfullRefsParams.referenceImages.getD []).map refImageOf).take 3 ∧
    (referenceImagesPayload overfullRefsParams).length =
      min (overfullRefsParams.logoImage.toList.length +
        (overfullRefsParams.referenceImages.getD []).length) 3 ∧
    (referenceImagesPayload overfullRefsParams).length ≤ 3 ∧
    overfullRefsPayload.config.referenceImages =
      (if (referenceImagesPayload overfullRefsParams).length > 0 then
        some (referenceImagesPayload overfullRefsParams)
      else none) :=
  generateVideo_referenceImages_capped overfullRefsParams overfullRefsPayload rfl

/-! ### C6 -/

/-- A chat provider that answers with no text. -/
def emptyTextChatEnv : ChatEnv :=
  { send := fun _ _ => .ok { text := none } }

/-- C6 counterexample: against a provider that returns no text,
`askCatalogAssistant` does not fail at all — it returns the absent value
verbatim. -/
theorem askCatalogAssistant_emptyText_cex :
    askCatalogAssistant emptyTextChatEnv "¿Disponibilidad de ANTUMAY?" [] =
      .ok none :=
  rfl

/-- C6 amended: `askCatalogAssistant` returns the provider's `text` field
verbatim — an absent text yields an absent value, not an error — while a
transport/auth failure of the provider call propagates as the failure of
the whole call. -/
theorem askCatalogAssistant_text_verbatim (env : ChatEnv) (prompt : String)
    (history : List ChatTurn) :
    (∀ r, env.send (askCatalogAssistantCall prompt history).1
        (askCatalogAssistantCall prompt history).2 = .ok r →
      askCatalogAssistant env prompt history = .ok r.text) ∧
    (∀ e, env.send (askCatalogAssistantCall prompt history).1
        (askCatalogAssistantCall prompt history).2 = .error e →
      askCatalogAssistant env prompt history = .error e) := by
  constructor <;> intro x hx <;> simp [askCatalogAssistant, hx, Except.map]

/-- A chat provider that answers with a fixed text. -/
def fixedTextChatEnv : ChatEnv :=
  { send := fun _ _ => .ok { text := some "700 - 1000 toneladas/mes" } }

/-- A chat provider whose call rejects, as on a transport/auth failure. -/
def failingChatEnv : ChatEnv :=
  { send := fun _ _ => .error (ChatFailure.providerError "401") }

/-- Witness for the amended C6: the provider's text comes back verbatim and
a rejected provider call propagates. -/
theorem askCatalogAssistant_text_verbatim_witness :
    askCatalogAssistant fixedTextChatEnv "¿ANTUMAY?" [] =
      .ok (some "700 - 1000 toneladas/mes") ∧
    askCatalogAssistant failingChatEnv "¿ANTUMAY?" [] =
      .error (ChatFailure.providerError "401") :=
  ⟨(askCatalogAssistant_text_verbatim fixedTextChatEnv "¿ANTUMAY?" []).1 _ rfl,
   (askCatalogAssistant_text_verbatim failingChatEnv "¿ANTUMAY?" []).2 _ rfl⟩

/-! ### C7 -/

/-- C7: the history argument is accepted but never threaded into the
outgoing call: for any two history values the outgoing call (model, system
instruction and message) is identical, and against the same provider the
result is identical — every chat call is single-turn. -/
theorem askCatalogAssistant_history_ignored (env : ChatEnv) (prompt : String)
    (h1 h2 : List ChatTurn) :
    askCatalogAssistantCall prompt h1 = askCatalogAssistantCall prompt h2 ∧
    askCatalogAssistant env prompt h1 = askCatalogAssistant env prompt h2 :=
  ⟨rfl, rfl⟩

/-! ### C8 -/

/-- C8: once the operation is done — if the response is absent or carries
no produced video, the run fails with the `No videos generated.` error and
no fetch happens; otherwise the first video's URI is decoded and fetched
with the key appended, and a non-success status fails with the
`Failed to fetch video` error carrying that status after the one fetch
call; and `generateVideoRun` hands every polled-to-completion operation to
exactly this handler. -/
theorem generateVideo_completion_errors (env : VideoEnv) (op : Operation)
    (hdone : op.done = true) :
    ((op.response.bind (fun r => r.generatedVideos)).getD [] = [] →
      handleCompletion env op = (.error GenError.noVideosGenerated, 0)) ∧
    (∀ r v vs, op.response = some r → r.generatedVideos = some (v :: vs) →
      (env.fetch (decodeURIComponent v.video.uri ++ "&key=" ++ env.apiKey)).ok
          = false →
      handleCompletion env op =
        (.error (GenError.fetchFailed
          ((env.fetch
            (decodeURIComponent v.video.uri ++ "&key=" ++ env.apiKey)).status)),
         1)) ∧
    (∀ fuel params payload polls,
      buildGenerateVideoPayload params = .ok payload →
      pollOperation env fuel (env.generateVideos payload) = (some op, polls) →
      generateVideoRun env fuel params =
        (some (handleCompletion env op).1,
         1 + polls + (handleCompletion env op).2)) := by
  refine ⟨fun hempty => ?_, fun r v vs hr hg hok => ?_, fun fuel params payload polls hb hp => ?_⟩
  · rcases hr : op.response with _ | r
    · simp [handleCompletion, hr]
    · rcases hg : r.generatedVideos with _ | l
      · simp [handleCompletion, hr, hg]
      · simp only [hr, Option.some_bind, hg, Option.getD_some] at hempty
        subst hempty
        simp [handleCompletion, hr, hg]
  · simp [handleCompletion, hr, hg, hok]
  · simp [generateVideoRun, hb, hp]

/-- A provider environment whose asset fetch is rejected with HTTP 403. -/
def forbiddenFetchEnv : VideoEnv :=
  { apiKey := "K"
    generateVideos := fun _ => { done := true }
    getVideosOperation := fun op => op
    fetch := fun _ => { ok := false, status := 403 }
    createObjectURL := fun _ => "blob:local" }

/-- A done operation whose response carries an empty produced-video list. -/
def doneEmptyOp : Operation :=
  { done := true, response := some { generatedVideos := some [] } }

/-- The single produced video of `doneVideoOp`. -/
def producedClip : GeneratedVideo :=
  { video := { uri := "https%3A%2F%2Fcdn%2Fclip.mp4" } }

/-- A done operation carrying one produced video. -/
def doneVideoOp : Operation :=
  { done := true
    response := some { generatedVideos := some [producedClip] } }

/-- Witness for C8: the empty result fails with `No videos generated.` with
no fetch, and the 403 fetch fails with the status carried in the error. -/
theorem generateVideo_completion_errors_witness :
    handleCompletion forbiddenFetchEnv doneEmptyOp =
      (.error GenError.noVideosGenerated, 0) ∧
    handleCompletion forbiddenFetchEnv doneVideoOp =
      (.error (GenError.fetchFailed 403), 1) :=
  ⟨(generateVideo_completion_errors forbiddenFetchEnv doneEmptyOp rfl).1 rfl,
   (generateVideo_completion_errors forbiddenFetchEnv doneVideoOp rfl).2.1
     { generatedVideos := some [producedClip] } producedClip [] rfl rfl rfl⟩

end AntuKuyen
